import Mathlib

/-!
Shallow embedding of the WhatsApp integration layer
(`src/whatsapp-integration.js` and `src/server.js`): the connection
lifecycle state machine, the resilient chat-fetch fallback chain, record
normalization, the recent-chat selection, the API-key validation guard,
and the timeout race, together with theorems settling the specification
claims about them.
-/

namespace WA

/-- Values taken by the module-level `connectionStatus` variable in
`whatsapp-integration.js`. -/
inductive Status where
  | disconnected
  | initializing
  | qr_received
  | ready
  | authenticated
  | auth_failure
  | errored
  deriving DecidableEq, Repr

/-- Lifecycle events processed by `initializeWhatsAppClient`: the five
client event handlers registered with `whatsappClient.on`, plus the two
synchronous phases of `initializeWhatsAppClient` itself (the
`connectionStatus = 'initializing'` assignment before `initialize()`, and
the `catch` block on an initialization exception). -/
inductive Event where
  | qr (payload : String)
  | ready
  | authenticated
  | auth_failure (msg : String)
  | disconnected (reason : String)
  | initStart
  | initError (msg : String)
  deriving DecidableEq, Repr

/-- The module-level mutable variables of `whatsapp-integration.js` that the
event handlers touch.  `keyCounter` indexes the supply of fresh random
strings produced by successive `generateApiKey()` calls: the `n`-th call
returns `keys n` for an ambient supply `keys : Nat → String`, which models
`Math.random`-based generation (each call draws a fresh value). -/
structure State where
  connectionStatus : Status
  qrCodeData : Option String
  initializationError : Option String
  apiKey : Option String
  keyCounter : Nat
  deriving DecidableEq, Repr

/-- Initial values of the module-level variables
(`connectionStatus = 'disconnected'`, everything else null). -/
def initialState : State :=
  { connectionStatus := .disconnected
  , qrCodeData := none
  , initializationError := none
  , apiKey := none
  , keyCounter := 0 }

/-- One event handler step, returning the updated state together with the
delay (in ms) of the `setTimeout(initializeWhatsAppClient, _)` call the
handler schedules, if any.  Transcribed handler by handler from
`initializeWhatsAppClient` in `whatsapp-integration.js`:
* `'qr'` stores the payload and sets status `qr_received`;
* `'ready'` assigns `apiKey = generateApiKey()` (unconditionally, drawing
  the next fresh key), sets status `ready` and clears `qrCodeData`;
* `'authenticated'` sets status only;
* `'auth_failure'` sets status and `initializationError` (no retry);
* `'disconnected'` sets status and schedules a retry after 5000 ms;
* the pre-`initialize()` assignment sets status `initializing`;
* the `catch` block sets status, records the message and schedules a
  retry after 10000 ms. -/
def step (keys : Nat → String) (s : State) : Event → State × Option Nat
  | .qr payload =>
      ({ s with qrCodeData := some payload, connectionStatus := .qr_received }, none)
  | .ready =>
      ({ s with apiKey := some (keys s.keyCounter)
              , keyCounter := s.keyCounter + 1
              , connectionStatus := .ready
              , qrCodeData := none }, none)
  | .authenticated =>
      ({ s with connectionStatus := .authenticated }, none)
  | .auth_failure msg =>
      ({ s with connectionStatus := .auth_failure
              , initializationError := some msg }, none)
  | .disconnected _ =>
      ({ s with connectionStatus := .disconnected }, some 5000)
  | .initStart =>
      ({ s with connectionStatus := .initializing }, none)
  | .initError msg =>
      ({ s with connectionStatus := .errored
              , initializationError := some msg }, some 10000)

/-- Fold the event handlers over a sequence of lifecycle events. -/
def run (keys : Nat → String) (s : State) (events : List Event) : State :=
  events.foldl (fun s e => (step keys s e).1) s

/-- `getQRCode` from `whatsapp-integration.js`: returns null when
`qrCodeData` is null, otherwise the data-URL rendering
`qrcode.toDataURL(qrCodeData)` — the rendering library is modelled by the
parameter `render`, which may itself fail (the `catch` returning null). -/
def getQRCode (render : String → Option String) (s : State) : Option String :=
  match s.qrCodeData with
  | none => none
  | some d => render d

/-- The number of `'ready'` events in a sequence. -/
def countReady (events : List Event) : Nat :=
  events.countP (fun e => e = Event.ready)

theorem step_keyCounter (keys : Nat → String) (s : State) (e : Event) :
    (step keys s e).1.keyCounter =
      s.keyCounter + (if e = Event.ready then 1 else 0) := by
  cases e <;> simp [step]

theorem run_keyCounter (keys : Nat → String) (events : List Event) :
    ∀ s : State, (run keys s events).keyCounter = s.keyCounter + countReady events := by
  induction events with
  | nil => intro s; simp [run, countReady]
  | cons e es ih =>
      intro s
      simp only [run, List.foldl_cons] at *
      rw [ih, step_keyCounter]
      cases e <;> (simp [countReady, List.countP_cons]; try omega)

theorem run_append_ready (keys : Nat → String) (events : List Event) :
    run keys initialState (events ++ [Event.ready]) =
      (step keys (run keys initialState events) Event.ready).1 := by
  simp [run, List.foldl_append]

/-- C1: the claim fails on the code.  The `'ready'` handler assigns
`apiKey = generateApiKey()` unconditionally, so with a fresh-key supply
`keys n = toString n` the sequence `[ready, disconnected, ready]` ends with
`apiKey` equal to the second generated key `"1"`, while the credential
generated at the first `ready` was `"0"` — the credential is regenerated,
not preserved. -/
theorem apiKey_regenerated_counterexample :
    (run (fun n => toString n) initialState [Event.ready]).apiKey = some "0" ∧
    (run (fun n => toString n) initialState
        [Event.ready, Event.disconnected "r", Event.ready]).apiKey = some "1" ∧
    (some "1" : Option String) ≠ some "0" := by
  refine ⟨rfl, rfl, by decide⟩

/-- C1 (amended): the access credential is regenerated at every `'ready'`
event: after processing any sequence of the form `events ++ [ready]`, the
stored `apiKey` is the key freshly drawn at that final `ready` — the
`countReady events`-th key of the supply — so a second
`Disconnected`→`Ready` cycle replaces the credential with a fresh one
rather than preserving the first. -/
theorem apiKey_fresh_at_every_ready (keys : Nat → String) (events : List Event) :
    (run keys initialState (events ++ [Event.ready])).apiKey =
      some (keys (countReady events)) := by
  rw [run_append_ready]
  simp [step, run_keyCounter, initialState]

/-- C2: the claim fails on the code.  The `'authenticated'` handler sets
`connectionStatus` without clearing `qrCodeData`, so after
`[qr "X", authenticated]` the status is `authenticated` (not
`qr_received`) while the stored pairing artifact is still non-null and
`getQRCode` still returns a rendering of it. -/
theorem qrCodeData_outside_qrPending_counterexample :
    (run (fun _ => "") initialState
        [Event.qr "X", Event.authenticated]).connectionStatus = Status.authenticated ∧
    (run (fun _ => "") initialState
        [Event.qr "X", Event.authenticated]).qrCodeData = some "X" ∧
    getQRCode (fun d => some d)
        (run (fun _ => "") initialState [Event.qr "X", Event.authenticated]) = some "X" := by
  refine ⟨rfl, rfl, rfl⟩

theorem run_ready_implies_qr_none (keys : Nat → String) (events : List Event) :
    ∀ s : State, (s.connectionStatus = Status.ready → s.qrCodeData = none) →
      (run keys s events).connectionStatus = Status.ready →
      (run keys s events).qrCodeData = none := by
  induction events with
  | nil => intro s h; simpa [run] using h
  | cons e es ih =>
      intro s h
      simp only [run, List.foldl_cons]
      refine ih (step keys s e).1 ?_
      cases e <;> simp [step]

/-- C2 (amended): processing a `'ready'` event clears `qrCodeData`, and
whenever the status is `ready` the stored pairing artifact is null, so
`getQRCode` returns null in the ready state.  (The artifact may however
survive into other non-`qr_received` states, e.g. `authenticated`.) -/
theorem qrCodeData_none_when_ready (keys : Nat → String) (render : String → Option String)
    (events : List Event)
    (h : (run keys initialState events).connectionStatus = Status.ready) :
    (run keys initialState events).qrCodeData = none ∧
    getQRCode render (run keys initialState events) = none := by
  have hq : (run keys initialState events).qrCodeData = none := by
    refine run_ready_implies_qr_none keys events initialState ?_ h
    intro hc
    simp [initialState] at hc
  exact ⟨hq, by simp [getQRCode, hq]⟩

/-- Witness for `qrCodeData_none_when_ready` at the concrete sequence
`[qr "X", ready]`. -/
theorem qrCodeData_none_when_ready_witness :
    (run (fun _ => "") initialState [Event.qr "X", Event.ready]).qrCodeData = none ∧
    getQRCode (fun d => some d)
        (run (fun _ => "") initialState [Event.qr "X", Event.ready]) = none :=
  qrCodeData_none_when_ready (fun _ => "") (fun d => some d)
    [Event.qr "X", Event.ready] (by decide)

/-- C6: the claim fails on the code.  The `'auth_failure'` handler only
records the status and error message; it schedules no
`setTimeout(initializeWhatsAppClient, _)` retry at all (only
`'disconnected'` and the `catch` block do). -/
theorem auth_failure_no_retry_counterexample :
    (step (fun _ => "") initialState (Event.auth_failure "denied")).2 = none ∧
    (step (fun _ => "") initialState
        (Event.auth_failure "denied")).1.connectionStatus = Status.auth_failure := by
  refine ⟨rfl, rfl⟩

/-- C6 (amended): a generic initialization error schedules a
re-initialization after B1 = 10000 ms, a disconnection schedules one after
B2 = 5000 ms, and B2 < B1; an auth-failure event schedules no
re-initialization. -/
theorem backoff_schedule (keys : Nat → String) (s : State)
    (reason msg failMsg : String) :
    (step keys s (Event.initError msg)).2 = some 10000 ∧
    (step keys s (Event.disconnected reason)).2 = some 5000 ∧
    (step keys s (Event.auth_failure failMsg)).2 = none ∧
    5000 < 10000 := by
  refine ⟨rfl, rfl, rfl, by omega⟩

/-- A chat record as handled by `server.js`: the fields the handlers read
(`chat.id._serialized`, `chat.name`, `chat.isGroup`, `chat.timestamp`,
`chat.unreadCount`), with `Option` for fields that may be absent in the
raw JavaScript object. -/
structure RawChat where
  idSerialized : String
  name : Option String
  isGroup : Bool
  timestamp : Option Nat
  unreadCount : Option Nat
  deriving DecidableEq, Repr

/-- A record produced by the in-page WA-JS evaluation
(`pupPage.evaluate`): `id`, `name`, `timestamp` (from `c.t`), `isGroup`,
and `unreadCount` already defaulted by `c.unreadCount || 0` inside the
page. -/
structure WajsChat where
  id : String
  name : Option String
  timestamp : Option Nat
  isGroup : Bool
  unreadCount : Nat
  deriving DecidableEq, Repr

/-- JavaScript `a || d` on a string `a` with default `d`: the default is
used when `a` is null/undefined or the empty string (falsy). -/
def jsOrStr (o : Option String) (d : String) : String :=
  match o with
  | some s => if s = "" then d else s
  | none => d

/-- The map applied to WA-JS records on return from strategy 4 in
`getChatsCustom`: `id: ⟨_serialized: chat.id⟩`, `name: chat.name || ''`,
`isGroup`, `timestamp`, `unreadCount` carried over. -/
def wajsToRaw (w : WajsChat) : RawChat :=
  { idSerialized := w.id
  , name := some (jsOrStr w.name "")
  , isGroup := w.isGroup
  , timestamp := w.timestamp
  , unreadCount := some w.unreadCount }

/-- The synthetic fallback record built at the end of `getChatsCustom`;
`now` stands for `Date.now() / 1000` at the moment of the call. -/
def mockChat (now : Nat) : RawChat :=
  { idSerialized := "mock-chat-id-1"
  , name := some "Mock Chat (Fallback)"
  , isGroup := false
  , timestamp := some now
  , unreadCount := some 0 }

/-- Outcomes of the four retrieval strategies for one `getChatsCustom`
run, as observed at the `await`/property-access sites:
* `getChats`: `whatsappClient.getChats()` — can throw, or resolve to a
  list (a null/undefined resolution behaves like `[]` under the
  `primaryChats && primaryChats.length > 0` guard and is folded into it);
* `internalChats`: the `whatsappClient._chats` collection (a missing
  collection behaves like `[]` under the same guard shape);
* `store`: `none` when `whatsappClient.store`/`store.getChats` is absent,
  otherwise the result of `store.getChats()` (throw or list);
* `wajs`: `none` when `whatsappClient.pupPage` is absent, otherwise the
  result of `pupPage.evaluate` (throw or list of WA-JS records). -/
structure ClientOutcomes where
  getChats : Except String (List RawChat)
  internalChats : List RawChat
  store : Option (Except String (List RawChat))
  wajs : Option (Except String (List WajsChat))
  deriving Repr

/-- Strategy 4 and the final fallback of `getChatsCustom`: return the
mapped WA-JS records when non-empty, else the single mock record. -/
def tryWajs (now : Nat) (c : ClientOutcomes) : List RawChat :=
  match c.wajs with
  | some (Except.ok w) => if 0 < w.length then w.map wajsToRaw else [mockChat now]
  | some (Except.error _) => [mockChat now]
  | none => [mockChat now]

/-- Strategy 3 of `getChatsCustom`: `store.getChats()` when available;
an error or an empty result falls through to strategy 4. -/
def tryStore (now : Nat) (c : ClientOutcomes) : List RawChat :=
  match c.store with
  | some (Except.ok l) => if 0 < l.length then l else tryWajs now c
  | some (Except.error _) => tryWajs now c
  | none => tryWajs now c

/-- Strategy 2 of `getChatsCustom`: the internal `_chats` collection when
non-empty, else strategy 3. -/
def tryInternal (now : Nat) (c : ClientOutcomes) : List RawChat :=
  if 0 < c.internalChats.length then c.internalChats else tryStore now c

/-- `getChatsCustom` from the `/api/chats` handler in `server.js`: the
four strategies tried in order, each thrown error or empty result falling
through to the next, ending in the single mock record.  The function is
total: every branch of the source either returns a list or falls through,
so no error escapes the chain. -/
def getChatsCustom (now : Nat) (c : ClientOutcomes) : List RawChat :=
  match c.getChats with
  | Except.ok l => if 0 < l.length then l else tryInternal now c
  | Except.error _ => tryInternal now c

/-- A strategy outcome that yields nothing: it threw, or returned an
empty collection. -/
def exceptEmpty : Except String (List RawChat) → Bool
  | Except.ok l => l.isEmpty
  | Except.error _ => true

/-- Strategy 3 yields nothing: store absent, threw, or empty. -/
def storeYieldsNothing (c : ClientOutcomes) : Bool :=
  match c.store with
  | some r => exceptEmpty r
  | none => true

/-- Strategy 4 yields nothing: page absent, threw, or empty. -/
def wajsYieldsNothing (c : ClientOutcomes) : Bool :=
  match c.wajs with
  | some (Except.ok w) => w.isEmpty
  | some (Except.error _) => true
  | none => true

theorem getChatsCustom_exhausted (now : Nat) (c : ClientOutcomes)
    (h1 : exceptEmpty c.getChats = true)
    (h2 : c.internalChats = [])
    (h3 : storeYieldsNothing c = true)
    (h4 : wajsYieldsNothing c = true) :
    getChatsCustom now c = [mockChat now] := by
  have hw : tryWajs now c = [mockChat now] := by
    unfold tryWajs
    rcases hv : c.wajs with _ | r
    · rfl
    · rcases r with e | w
      · rfl
      · simp [wajsYieldsNothing, hv] at h4
        simp [h4]
  have hs : tryStore now c = [mockChat now] := by
    unfold tryStore
    rcases hv : c.store with _ | r
    · exact hw
    · rcases r with e | l
      · exact hw
      · simp [storeYieldsNothing, hv, exceptEmpty] at h3
        simp [h3, hw]
  have hi : tryInternal now c = [mockChat now] := by
    unfold tryInternal
    simp [h2, hs]
  unfold getChatsCustom
  rcases hg : c.getChats with e | l
  · exact hi
  · simp [exceptEmpty, hg] at h1
    simp [h1, hi]

/-- C3: when every strategy throws or yields an empty collection, the
chain returns exactly the one synthetic mock record — a list of length 1,
never empty; and since `getChatsCustom` is a total function on strategy
outcomes, no error is thrown. -/
theorem all_strategies_exhausted_yields_mock (now : Nat) (c : ClientOutcomes)
    (h1 : exceptEmpty c.getChats = true)
    (h2 : c.internalChats = [])
    (h3 : storeYieldsNothing c = true)
    (h4 : wajsYieldsNothing c = true) :
    getChatsCustom now c = [mockChat now] ∧ (getChatsCustom now c).length = 1 := by
  have h := getChatsCustom_exhausted now c h1 h2 h3 h4
  exact ⟨h, by simp [h]⟩

/-- Witness for `all_strategies_exhausted_yields_mock` at a run where the
primary method throws, the internal collection is empty, the store
throws, and the page evaluation throws. -/
theorem all_strategies_exhausted_yields_mock_witness :
    getChatsCustom 1700000000
        { getChats := Except.error "primary failed"
        , internalChats := []
        , store := some (Except.error "store failed")
        , wajs := some (Except.error "evaluate failed") } = [mockChat 1700000000] ∧
    (getChatsCustom 1700000000
        { getChats := Except.error "primary failed"
        , internalChats := []
        , store := some (Except.error "store failed")
        , wajs := some (Except.error "evaluate failed") }).length = 1 :=
  all_strategies_exhausted_yields_mock 1700000000 _ rfl rfl rfl rfl

/-- C4: a strategy failure (throw or empty result) only moves the chain
to the next strategy: whenever every strategy before strategy k fails and
strategy k returns a non-empty collection, the chain's value is exactly
strategy k's data (mapped into the common shape for the WA-JS strategy),
with no trace of the earlier failures and no thrown error. -/
theorem chain_returns_first_nonempty (now : Nat) (c : ClientOutcomes) :
    (exceptEmpty c.getChats = true → c.internalChats ≠ [] →
        getChatsCustom now c = c.internalChats) ∧
    (exceptEmpty c.getChats = true → c.internalChats = [] →
        ∀ l, c.store = some (Except.ok l) → l ≠ [] → getChatsCustom now c = l) ∧
    (exceptEmpty c.getChats = true → c.internalChats = [] →
        storeYieldsNothing c = true →
        ∀ w, c.wajs = some (Except.ok w) → w ≠ [] →
          getChatsCustom now c = w.map wajsToRaw) := by
  have hmain : ∀ h1 : exceptEmpty c.getChats = true,
      getChatsCustom now c = tryInternal now c := by
    intro h1
    unfold getChatsCustom
    rcases hg : c.getChats with e | l
    · rfl
    · simp [exceptEmpty, hg] at h1
      simp [h1]
  refine ⟨?_, ?_, ?_⟩
  · intro h1 h2
    rw [hmain h1]
    unfold tryInternal
    have : 0 < c.internalChats.length := List.length_pos.mpr h2
    simp [this]
  · intro h1 h2 l hl hne
    rw [hmain h1]
    unfold tryInternal tryStore
    simp only [h2, List.length_nil, lt_irrefl, if_false, hl]
    have : 0 < l.length := List.length_pos.mpr hne
    simp [this]
  · intro h1 h2 h3 w hw hne
    rw [hmain h1]
    unfold tryInternal tryStore tryWajs
    have hwl : 0 < w.length := List.length_pos.mpr hne
    rcases hv : c.store with _ | r
    · simp [h2, hw, hwl]
    · rcases r with e | l
      · simp [h2, hw, hwl]
      · simp [storeYieldsNothing, hv, exceptEmpty] at h3
        simp [h2, h3, hw, hwl]

/-- Witness for `chain_returns_first_nonempty`: primary throws, the
internal collection is empty, and the store returns one chat; the chain
returns exactly the store's data. -/
theorem chain_returns_first_nonempty_witness :
    getChatsCustom 0
        { getChats := Except.error "boom"
        , internalChats := []
        , store := some (Except.ok [mockChat 7])
        , wajs := none } = [mockChat 7] :=
  (chain_returns_first_nonempty 0
      { getChats := Except.error "boom"
      , internalChats := []
      , store := some (Except.ok [mockChat 7])
      , wajs := none }).2.1 rfl rfl [mockChat 7] rfl (by simp)

/-- A chat record as serialized by the `/api/chats` handler
(`formattedChats`). -/
structure FormattedChat where
  id : String
  name : String
  isGroup : Bool
  timestamp : Option String
  unreadCount : Nat
  deriving DecidableEq, Repr

/-- JavaScript `a || d` on a number with default `d`: the default is used
when `a` is null/undefined or `0` (falsy). -/
def jsOrNat (o : Option Nat) (d : Nat) : Nat :=
  match o with
  | some n => if n = 0 then d else n
  | none => d

/-- The `formattedChats` mapping in the `/api/chats` handler:
`id: chat.id._serialized`, `name: chat.name || ''`, `isGroup`,
`timestamp: chat.timestamp ? new Date(chat.timestamp * 1000).toISOString()
: null`, `unreadCount: chat.unreadCount || 0`.  The `Date.toISOString`
library call is modelled by the parameter `iso`, applied to the
millisecond value `timestamp * 1000`. -/
def formatChat (iso : Nat → String) (c : RawChat) : FormattedChat :=
  { id := c.idSerialized
  , name := jsOrStr c.name ""
  , isGroup := c.isGroup
  , timestamp :=
      match c.timestamp with
      | some t => if t = 0 then none else some (iso (t * 1000))
      | none => none
  , unreadCount := jsOrNat c.unreadCount 0 }

/-- A message record as read by the `/api/messages` handler:
`msg.id._serialized`, `msg.body`, `msg.timestamp`, `msg.from`,
`msg.fromMe`, `msg.type` (the last three as `sender`, `fromMe`,
`msgType`). -/
structure RawMsg where
  idSerialized : String
  body : Option String
  timestamp : Option Nat
  sender : Option String
  fromMe : Option Bool
  msgType : Option String
  deriving DecidableEq, Repr

/-- A message as serialized by the `/api/messages` handler
(`formattedMessages`). -/
structure FormattedMsg where
  id : String
  body : String
  timestamp : Option String
  sender : String
  fromMe : Bool
  msgType : String
  deriving DecidableEq, Repr

/-- The `formattedMessages` mapping in the `/api/messages` handler:
`id: msg.id._serialized`, `body: msg.body || ''`, `timestamp:
msg.timestamp ? new Date(msg.timestamp * 1000).toISOString() : null`,
`from: msg.from || ''`, `fromMe: msg.fromMe || false`,
`type: msg.type || 'chat'`. -/
def formatMsg (iso : Nat → String) (m : RawMsg) : FormattedMsg :=
  { id := m.idSerialized
  , body := jsOrStr m.body ""
  , timestamp :=
      match m.timestamp with
      | some t => if t = 0 then none else some (iso (t * 1000))
      | none => none
  , sender := jsOrStr m.sender ""
  , fromMe := m.fromMe.getD false
  , msgType := jsOrStr m.msgType "chat" }

/-- C8: the claim fails on the code.  The conversion guard is the JS
truthiness test `chat.timestamp ? … : null`, so a present timestamp equal
to `0` (the epoch itself, falsy in JavaScript) is serialized as null, not
as an ISO-8601 instant: at the record with `timestamp = some 0` the
normalized timestamp is `none` although `Option.map` of the instant
rendering gives `some (iso 0)`. -/
theorem format_timestamp_zero_counterexample :
    (formatChat (fun ms => toString ms)
        { idSerialized := "a", name := none, isGroup := false
        , timestamp := some 0, unreadCount := none }).timestamp = none ∧
    Option.map (fun t => toString (t * 1000))
        (({ idSerialized := "a", name := none, isGroup := false
          , timestamp := some 0, unreadCount := none } : RawChat).timestamp) = some "0" ∧
    (none : Option String) ≠ some "0" := by
  refine ⟨rfl, rfl, by decide⟩

/-- C8 (amended): normalization coerces the identifier to its serialized
string form, maps a non-zero timestamp `t` (seconds) to the ISO-8601
rendering of `t * 1000` milliseconds, and yields null when the timestamp
is absent **or zero** (JS falsy guard) — for chat records and message
records alike. -/
theorem format_normalization (iso : Nat → String) (c : RawChat) (m : RawMsg) :
    (formatChat iso c).id = c.idSerialized ∧
    (c.timestamp = none ∨ c.timestamp = some 0 → (formatChat iso c).timestamp = none) ∧
    (∀ t, c.timestamp = some t → t ≠ 0 →
        (formatChat iso c).timestamp = some (iso (t * 1000))) ∧
    (formatMsg iso m).id = m.idSerialized ∧
    (m.timestamp = none ∨ m.timestamp = some 0 → (formatMsg iso m).timestamp = none) ∧
    (∀ t, m.timestamp = some t → t ≠ 0 →
        (formatMsg iso m).timestamp = some (iso (t * 1000))) := by
  refine ⟨rfl, ?_, ?_, rfl, ?_, ?_⟩
  · rintro (h | h) <;> simp [formatChat, h]
  · intro t ht hne; simp [formatChat, ht, hne]
  · rintro (h | h) <;> simp [formatMsg, h]
  · intro t ht hne; simp [formatMsg, ht, hne]

/-- Witness for `format_normalization` at a chat with timestamp 5 and a
message with no timestamp. -/
theorem format_normalization_witness :
    (formatChat (fun ms => toString ms)
        { idSerialized := "c1", name := some "n", isGroup := true
        , timestamp := some 5, unreadCount := some 2 }).timestamp = some "5000" ∧
    (formatMsg (fun ms => toString ms)
        { idSerialized := "m1", body := none, timestamp := none
        , sender := none, fromMe := none, msgType := none }).timestamp = none :=
  ⟨(format_normalization (fun ms => toString ms)
      { idSerialized := "c1", name := some "n", isGroup := true
      , timestamp := some 5, unreadCount := some 2 }
      { idSerialized := "m1", body := none, timestamp := none
      , sender := none, fromMe := none, msgType := none }).2.2.1 5 rfl (by decide),
   (format_normalization (fun ms => toString ms)
      { idSerialized := "c1", name := some "n", isGroup := true
      , timestamp := some 5, unreadCount := some 2 }
      { idSerialized := "m1", body := none, timestamp := none
      , sender := none, fromMe := none, msgType := none }).2.2.2.2.1 (Or.inl rfl)⟩

/-- The sort key in the `/api/recent-message` handler:
`a.timestamp || 0`. -/
def chatKey (c : RawChat) : Nat := c.timestamp.getD 0

/-- The comparator `(a, b) => timeB - timeA` sorts so that an element `a`
may precede `b` exactly when `chatKey b ≤ chatKey a` (newest first). -/
def chatDescLe (a b : RawChat) : Bool := decide (chatKey b ≤ chatKey a)

/-- `sortedChats` in the `/api/recent-message` handler: the chats sorted
newest-first by the comparator above (JS `Array.prototype.sort` is a
stable sort; modelled by `mergeSort`). -/
def sortChatsDesc (l : List RawChat) : List RawChat := l.mergeSort chatDescLe

/-- `sortedChats[0]`: the selected most-recent chat. -/
def recentChat (l : List RawChat) : Option RawChat := (sortChatsDesc l).head?

/-- C9: for a non-empty collection, the recent-activity selection sorts
by timestamp descending with missing timestamps treated as 0, and picks
the first element of the sorted sequence: the selection exists, is drawn
from the collection, and carries a maximal timestamp key; the sorted
sequence is a permutation of the input in descending key order. -/
theorem recent_selection_is_max (l : List RawChat) (h : l ≠ []) :
    ∃ ch, recentChat l = some ch ∧ ch ∈ l ∧ (∀ x ∈ l, chatKey x ≤ chatKey ch) ∧
      List.Pairwise (fun a b => chatKey b ≤ chatKey a) (sortChatsDesc l) ∧
      (sortChatsDesc l).Perm l := by
  have hperm : (sortChatsDesc l).Perm l := List.mergeSort_perm l chatDescLe
  have hsorted : List.Pairwise (fun a b => chatDescLe a b = true) (sortChatsDesc l) :=
    @List.sorted_mergeSort RawChat chatDescLe
      (by intro a b c hab hbc; simp [chatDescLe] at *; omega)
      (by intro a b; simp [chatDescLe] at *; omega) l
  have hsorted' : List.Pairwise (fun a b => chatKey b ≤ chatKey a) (sortChatsDesc l) := by
    refine hsorted.imp ?_
    intro a b hab
    simpa [chatDescLe] using hab
  rcases hl : sortChatsDesc l with _ | ⟨ch, rest⟩
  · exfalso
    rw [hl] at hperm
    exact h hperm.symm.eq_nil
  · rw [hl] at hperm hsorted'
    refine ⟨ch, by simp [recentChat, hl], ?_, ?_, hsorted', hperm⟩
    · exact hperm.mem_iff.mp (by simp)
    · intro x hx
      have hx' : x ∈ ch :: rest := hperm.mem_iff.mpr hx
      rcases List.mem_cons.mp hx' with rfl | hx''
      · exact le_refl _
      · exact List.rel_of_pairwise_cons hsorted' hx''

/-- Witness for `recent_selection_is_max` on a three-chat collection with
a missing timestamp in the middle. -/
theorem recent_selection_is_max_witness :
    ∃ ch, recentChat [mockChat 3,
        { idSerialized := "b", name := none, isGroup := false
        , timestamp := none, unreadCount := none }, mockChat 9] = some ch ∧
      ch ∈ [mockChat 3,
        { idSerialized := "b", name := none, isGroup := false
        , timestamp := none, unreadCount := none }, mockChat 9] ∧
      (∀ x ∈ [mockChat 3,
        { idSerialized := "b", name := none, isGroup := false
        , timestamp := none, unreadCount := none }, mockChat 9],
          chatKey x ≤ chatKey ch) ∧
      List.Pairwise (fun a b => chatKey b ≤ chatKey a)
        (sortChatsDesc [mockChat 3,
          { idSerialized := "b", name := none, isGroup := false
          , timestamp := none, unreadCount := none }, mockChat 9]) ∧
      (sortChatsDesc [mockChat 3,
        { idSerialized := "b", name := none, isGroup := false
        , timestamp := none, unreadCount := none }, mockChat 9]).Perm
        [mockChat 3,
        { idSerialized := "b", name := none, isGroup := false
        , timestamp := none, unreadCount := none }, mockChat 9] :=
  recent_selection_is_max _ (by simp)

/-- JavaScript truthiness of a nullable string: null/undefined and the
empty string are falsy. -/
def jsTruthy : Option String → Bool
  | some s => !(s == "")
  | none => false

/-- JavaScript `a || b` on nullable strings: `b` when `a` is falsy. -/
def jsOrVal (a b : Option String) : Option String :=
  if jsTruthy a then a else b

/-- Drop the first occurrence of `pat` from a character list, leaving the
rest unchanged (JavaScript `String.replace` with a string pattern and an
empty replacement touches only the first occurrence). -/
def removeFirstOcc (pat : List Char) : List Char → List Char
  | [] => []
  | c :: rest =>
      if pat.isPrefixOf (c :: rest) then (c :: rest).drop pat.length
      else c :: removeFirstOcc pat rest

/-- `headerApiKey.replace('Bearer ', '')` from the credential guards in
`server.js`. -/
def stripBearer (s : String) : String :=
  String.mk (removeFirstOcc "Bearer ".toList s.toList)

/-- The credential-bearing parts of one HTTP request, as the guards in
`server.js` read them: the `api_key` and `apiKey` query parameters
(`urlParams.get`), and the `x-api-key` and `authorization` headers. -/
structure ApiRequest where
  api_key : Option String
  apiKey : Option String
  xApiKey : Option String
  authorization : Option String
  deriving DecidableEq, Repr

/-- `providedApiKey` as computed by the guards in `server.js`:
`requestApiKey = urlParams.get('api_key') || urlParams.get('apiKey')`,
`headerApiKey = headers['x-api-key'] || headers['authorization']`,
`providedApiKey = requestApiKey ||
(headerApiKey && headerApiKey.replace('Bearer ', ''))`. -/
def providedApiKey (r : ApiRequest) : Option String :=
  let requestKey := jsOrVal r.api_key r.apiKey
  let headerKey := jsOrVal r.xApiKey r.authorization
  jsOrVal requestKey (if jsTruthy headerKey then headerKey.map stripBearer else headerKey)

/-- An error response: HTTP status code and the JSON body's `success` and
`error` fields. -/
structure ErrResp where
  statusCode : Nat
  success : Bool
  errMsg : String
  deriving DecidableEq, Repr

/-- The `401` response body written on an API-key mismatch:
`success: false`, `error: 'Invalid API key'`. -/
def invalidApiKeyResp : ErrResp :=
  { statusCode := 401, success := false, errMsg := "Invalid API key" }

/-- The credential guard shared by `/api/status`, `/api/chats`,
`/api/messages` and `/api/recent-message` in `server.js`: only when the
client is ready and holds an API key, and only when the request provides
a (truthy) key, the provided key is compared with `!==` against the
stored key; a mismatch yields the 401 response, everything else lets the
request continue (`none`). -/
def validateApiKey (st : Status) (clientApiKey : Option String) (r : ApiRequest) :
    Option ErrResp :=
  if st = Status.ready ∧ jsTruthy clientApiKey then
    let provided := providedApiKey r
    if jsTruthy provided ∧ provided ≠ clientApiKey then some invalidApiKeyResp
    else none
  else none

/-- C7: when the session is ready with a stored credential and the
request supplies a (truthy) credential — via the `Authorization` header
(with its `Bearer ` prefix stripped), the `x-api-key` header, or the
`api_key`/`apiKey` query parameters — the guard rejects with the 401
`Invalid API key` response exactly when the supplied string differs from
the stored string (plain string equality). -/
theorem invalid_key_rejected_401 (r : ApiRequest) (ck k : String)
    (hk : providedApiKey r = some k) (hkt : k ≠ "") (hck : ck ≠ "") :
    (validateApiKey Status.ready (some ck) r = some invalidApiKeyResp ↔ k ≠ ck) ∧
    invalidApiKeyResp.statusCode = 401 ∧
    invalidApiKeyResp.success = false ∧
    invalidApiKeyResp.errMsg = "Invalid API key" := by
  refine ⟨?_, rfl, rfl, rfl⟩
  unfold validateApiKey
  simp only [hk]
  by_cases hkc : k = ck
  · subst hkc
    simp [jsTruthy, hck]
  · simp [jsTruthy, hkt, hck, hkc]

/-- Witness for `invalid_key_rejected_401`: header
`Authorization: Bearer wrongvalue` against stored credential `abc123`
yields the 401 `Invalid API key` response. -/
theorem invalid_key_rejected_401_witness :
    validateApiKey Status.ready (some "abc123")
      { api_key := none, apiKey := none, xApiKey := none
      , authorization := some "Bearer wrongvalue" } = some invalidApiKeyResp ∧
    invalidApiKeyResp.statusCode = 401 ∧
    invalidApiKeyResp.success = false ∧
    invalidApiKeyResp.errMsg = "Invalid API key" :=
  have h := invalid_key_rejected_401
    { api_key := none, apiKey := none, xApiKey := none
    , authorization := some "Bearer wrongvalue" }
    "abc123" "wrongvalue" (by decide) (by decide) (by decide)
  ⟨h.1.mpr (by decide), h.2.1, h.2.2.1, h.2.2.2⟩

/-- A request that carries no credential in any of the four places. -/
def bareRequest : ApiRequest :=
  { api_key := none, apiKey := none, xApiKey := none, authorization := none }

/-- C10: a request that supplies no credential at all never reaches the
401 branch — for every session status and stored credential (in
particular ready with a generated key), the guard computes a falsy
`providedApiKey` and lets the request continue. -/
theorem no_credential_never_401 (st : Status) (clientApiKey : Option String) :
    validateApiKey st clientApiKey bareRequest = none := by
  unfold validateApiKey
  split
  · simp [providedApiKey, jsOrVal, jsTruthy, bareRequest]
  · rfl

/-- The fixed wall-clock budget of the `/api/chats` race: 15 seconds. -/
def timeoutMs : Nat := 15000

/-- The message of the rejection produced when the timer wins the race. -/
def timeoutMessage : String := "Request timed out after 15 seconds"

/-- Completion time of the remaining page-evaluation step of the chain:
no `pupPage` means no further await (the chain finishes synchronously at
`acc`); an evaluation that hangs (`d4 = none`) makes the whole chain hang. -/
def wajsTime (c : ClientOutcomes) (acc : Nat) (d4 : Option Nat) : Option Nat :=
  match c.wajs with
  | none => some acc
  | some _ =>
      match d4 with
      | none => none
      | some t4 => some (acc + t4)

/-- Completion time of one `getChatsCustom()` run as a single
asynchronous unit.  `d1`, `d3`, `d4` are the durations of the three
awaited strategy calls (`getChats()`, `store.getChats()`,
`pupPage.evaluate`), with `none` for a call that never settles; strategy
2 (property access) and the final mock construction are synchronous.  The
chain hangs (`none`) exactly when some strategy call it reaches hangs;
otherwise it completes at the sum of the durations of the calls it made. -/
def chainTime (c : ClientOutcomes) (d1 d3 d4 : Option Nat) : Option Nat :=
  match d1 with
  | none => none
  | some t1 =>
      if !(exceptEmpty c.getChats) then some t1
      else if !c.internalChats.isEmpty then some t1
      else
        match c.store with
        | some sres =>
            (match d3 with
             | none => none
             | some t3 =>
                if !(exceptEmpty sres) then some (t1 + t3)
                else wajsTime c (t1 + t3) d4)
        | none => wajsTime c t1 d4

/-- The `Promise.race([getChatsCustom(), timeoutPromise])` of the
`/api/chats` handler: the single 15-second timer is raced against the
whole chain; the chain's value resolves the race only if it settles
before the budget, otherwise the race rejects with the timeout error. -/
def raceChats (now : Nat) (c : ClientOutcomes) (d1 d3 d4 : Option Nat) :
    Except String (List RawChat) :=
  match chainTime c d1 d3 d4 with
  | none => Except.error timeoutMessage
  | some t =>
      if t < timeoutMs then Except.ok (getChatsCustom now c)
      else Except.error timeoutMessage

/-- C5: the whole strategy chain is raced as one unit against the single
15-second budget: if the chain hangs, or settles only at or after the
budget, the operation rejects with the timeout error; while a chain that
exhausts every strategy within the budget resolves with the one-record
placeholder — an `ok` outcome distinct from the timeout rejection. -/
theorem race_timeout_vs_exhausted (now : Nat) (c : ClientOutcomes)
    (d1 d3 d4 : Option Nat) :
    (chainTime c d1 d3 d4 = none →
        raceChats now c d1 d3 d4 = Except.error timeoutMessage) ∧
    (∀ t, chainTime c d1 d3 d4 = some t → timeoutMs ≤ t →
        raceChats now c d1 d3 d4 = Except.error timeoutMessage) ∧
    (exceptEmpty c.getChats = true → c.internalChats = [] →
        storeYieldsNothing c = true → wajsYieldsNothing c = true →
        ∀ t, chainTime c d1 d3 d4 = some t → t < timeoutMs →
          raceChats now c d1 d3 d4 = Except.ok [mockChat now] ∧
          (Except.ok [mockChat now] : Except String (List RawChat)) ≠
            Except.error timeoutMessage) := by
  refine ⟨?_, ?_, ?_⟩
  · intro hnone
    simp [raceChats, hnone]
  · intro t ht hle
    simp [raceChats, ht, Nat.not_lt.mpr hle]
  · intro h1 h2 h3 h4 t ht hlt
    refine ⟨?_, by simp⟩
    simp [raceChats, ht, hlt, getChatsCustom_exhausted now c h1 h2 h3 h4]

/-- Witness for `race_timeout_vs_exhausted`: a primary call that never
settles makes the race reject with the timeout error, while the same
strategy outcomes settling instantly resolve with the placeholder. -/
theorem race_timeout_vs_exhausted_witness :
    raceChats 0
        { getChats := Except.error "boom", internalChats := []
        , store := none, wajs := none } none none none =
      Except.error timeoutMessage ∧
    raceChats 0
        { getChats := Except.error "boom", internalChats := []
        , store := none, wajs := none } (some 1) (some 1) (some 1) =
      Except.ok [mockChat 0] :=
  ⟨(race_timeout_vs_exhausted 0
      { getChats := Except.error "boom", internalChats := []
      , store := none, wajs := none } none none none).1 rfl,
   ((race_timeout_vs_exhausted 0
      { getChats := Except.error "boom", internalChats := []
      , store := none, wajs := none } (some 1) (some 1) (some 1)).2.2
      rfl rfl rfl rfl 1 rfl (by decide)).1⟩

end WA
